import Mathlib

/-!
Shallow embedding of the mds-articles front-end core: the article-resolution
pipeline of ArticlesComponent (src/app/articles/articles.component.ts) and
the application-level Markdown configuration (appConfig, app.config.ts).

The component keeps a single mutable field filePath, initialised to the
empty string, injects the route-parameter observable of ActivatedRoute, and
subscribes to it in the constructor; on each emission it assigns

  filePath := "assets/markdown/" ++ interpolated title ++ ".md"

where the interpolation follows JavaScript template-literal semantics: an
absent key reads as undefined, which prints as the literal string
"undefined". The application configuration passes sanitize =
SecurityContext.NONE to provideMarkdown.
-/

/-- Route parameters as delivered by the navigation layer: a finite map from
parameter names to string values, modelled as an association list. -/
abbrev Params : Type := List (String × String)

/-- JavaScript property lookup on a parameter snapshot: `some v` when the
key is present, `none` (JavaScript undefined) when it is absent. -/
def getParam (ps : Params) (k : String) : Option String :=
  (ps.find? (fun kv => kv.1 == k)).map (fun kv => kv.2)

/-- JavaScript template-literal interpolation of a possibly-undefined value:
undefined prints as the literal string "undefined". -/
def jsString : Option String → String
  | some s => s
  | none => "undefined"

/-- The fixed template of the subscribe callback in
articles.component.ts: the interpolated value between the literal pieces
"assets/markdown/" and ".md". -/
def templatePath (x : String) : String :=
  "assets/markdown/" ++ x ++ ".md"

/-- The content path the subscribe callback computes from one
route-parameter snapshot: the template instantiated with the interpolation
of the title lookup. -/
def computePath (ps : Params) : String :=
  templatePath (jsString (getParam ps "title"))

/-- Reference, by identity, to the route-parameter observable obtained from
the injected ActivatedRoute. The component never replaces it, so only its
identity matters to the embedding. -/
structure ParamsStream where
  ref : Nat
deriving DecidableEq

/-- The state of ArticlesComponent: its two instance fields, the content
path `filePath` and the injected parameter observable `params`. -/
structure ArticlesComponent where
  filePath : String
  params : ParamsStream
deriving DecidableEq

/-- The component as constructed: `filePath` initialised to the empty
string, `params` to the injected observable. -/
def ArticlesComponent.init (s : ParamsStream) : ArticlesComponent :=
  { filePath := "", params := s }

/-- The subscribe callback registered in the constructor: on one
route-parameter emission, assign the recomputed content path to
`filePath`. -/
def ArticlesComponent.onParams (c : ArticlesComponent) (ps : Params) : ArticlesComponent :=
  { c with filePath := computePath ps }

/-- The component after a sequence of route-parameter emissions, oldest
first. -/
def ArticlesComponent.run (c : ArticlesComponent) (es : List Params) : ArticlesComponent :=
  es.foldl ArticlesComponent.onParams c

/-- The values of the Angular SecurityContext enum used by the
sanitizer. -/
inductive SecurityContext where
  | NONE
  | HTML
  | STYLE
  | SCRIPT
  | URL
  | RESOURCE_URL
deriving DecidableEq

/-- The options object passed to provideMarkdown in app.config.ts: the
loader is the HttpClient, sanitize is SecurityContext.NONE, and the
clipboard button component is configured. -/
structure MarkdownOptions where
  loaderIsHttpClient : Bool
  sanitize : SecurityContext
  clipboardButtonProvided : Bool
deriving DecidableEq

/-- The application configuration of app.config.ts: the provider list
(router, HttpClient, async animations) and the Markdown options. -/
structure ApplicationConfig where
  routerProvided : Bool
  httpClientProvided : Bool
  asyncAnimationsProvided : Bool
  markdown : MarkdownOptions
deriving DecidableEq

/-- appConfig of app.config.ts, field for field. -/
def appConfig : ApplicationConfig :=
  { routerProvided := true
    httpClientProvided := true
    asyncAnimationsProvided := true
    markdown :=
      { loaderIsHttpClient := true
        sanitize := SecurityContext.NONE
        clipboardButtonProvided := true } }

/-- Modelled from the spec: the Markdown renderer itself is the external
ngx-markdown library, not code of this repository. The spec states that
with sanitization disabled "any HTML or script embedded in the Markdown
source is rendered verbatim", so we model only the sanitization stage of
the pipeline: with sanitize = SecurityContext.NONE the markup passes
through verbatim; under any sanitizing context, script tags are escaped. -/
def renderOutput (opts : MarkdownOptions) (markup : String) : String :=
  if opts.sanitize = SecurityContext.NONE then markup
  else (markup.replace "<script>" "&lt;script&gt;").replace "</script>" "&lt;/script&gt;"

/-- Modelled from the spec: one event of the fetch-and-render loop of
section 5 of the spec. A navigation delivers a parameter snapshot; a fetch
issued earlier resolves with the text found at its path. -/
inductive RenderEvent where
  | emit (ps : Params)
  | resolve (path content : String)
deriving DecidableEq

/-- Modelled from the spec: the view-level state around the component — the
component itself, the paths whose fetches are still in flight, and the
currently displayed document tagged with the path it was fetched for. -/
structure ViewState where
  component : ArticlesComponent
  pending : List String
  displayed : Option (String × String)
deriving DecidableEq

/-- The view state right after construction: no fetch in flight, nothing
displayed. -/
def initView (s : ParamsStream) : ViewState :=
  { component := ArticlesComponent.init s, pending := [], displayed := none }

/-- Modelled from the spec: processing one event of the loop. A parameter
emission runs the subscribe callback and issues a fetch for the new path; a
fetch resolution for a pending path replaces the displayed document
unconditionally, since per the spec no explicit cancellation of an
in-flight fetch is performed when a new navigation supersedes it. -/
def stepEvent (s : ViewState) : RenderEvent → ViewState
  | RenderEvent.emit ps =>
      let c := ArticlesComponent.onParams s.component ps
      { s with component := c, pending := s.pending ++ [c.filePath] }
  | RenderEvent.resolve p content =>
      if s.pending.contains p then
        { s with pending := s.pending.erase p, displayed := some (p, content) }
      else s

/-- The view state after a sequence of loop events, oldest first. -/
def runEvents (s : ViewState) (es : List RenderEvent) : ViewState :=
  es.foldl stepEvent s

/-- The event trace of the latent race: navigate to title a, navigate to
title b, then b's fetch resolves, then a's stale fetch resolves last. -/
def raceTrace : List RenderEvent :=
  [RenderEvent.emit [("title", "a")],
   RenderEvent.emit [("title", "b")],
   RenderEvent.resolve "assets/markdown/b.md" "content b",
   RenderEvent.resolve "assets/markdown/a.md" "content a"]

/-- The invariant claimed of every reachable `filePath`: the empty string,
or a string whose character list starts with that of "assets/markdown/" and
ends with that of ".md". -/
def PathInvariant (s : String) : Prop :=
  s = "" ∨ ("assets/markdown/".data <+: s.data ∧ ".md".data <:+ s.data)

/-- The character list of an instantiated template is the concatenation of
the two literal pieces around the interpolated value. -/
lemma data_templatePath (x : String) :
    (templatePath x).data = "assets/markdown/".data ++ x.data ++ ".md".data := by
  simp [templatePath, String.data_append]

/-- An instantiated template is never the empty string. -/
lemma templatePath_ne_empty (x : String) : templatePath x ≠ "" := by
  intro h
  have h2 := congrArg String.data h
  rw [data_templatePath] at h2
  exact absurd (List.append_eq_nil.mp h2).2 (by decide)

/-- A computed content path is never the empty string. -/
lemma computePath_ne_empty (ps : Params) : computePath ps ≠ "" :=
  templatePath_ne_empty (jsString (getParam ps "title"))

/-- Unfolding one emission at the front of a run. -/
lemma run_cons (c : ArticlesComponent) (q : Params) (qs : List Params) :
    ArticlesComponent.run c (q :: qs)
      = ArticlesComponent.run (ArticlesComponent.onParams c q) qs := rfl

/-- A run ending in an emission ends by running the callback on it. -/
lemma run_concat (c : ArticlesComponent) (es : List Params) (p : Params) :
    ArticlesComponent.run c (es ++ [p])
      = ArticlesComponent.onParams (ArticlesComponent.run c es) p := by
  simp [ArticlesComponent.run, List.foldl_append]

/-- After any run, `filePath` is the starting value or the computed path of
some emission. -/
lemma run_filePath_cases (c : ArticlesComponent) (es : List Params) :
    (ArticlesComponent.run c es).filePath = c.filePath ∨
    ∃ p, (ArticlesComponent.run c es).filePath = computePath p := by
  induction es generalizing c with
  | nil => exact Or.inl rfl
  | cons q qs ih =>
    rw [run_cons]
    rcases ih (ArticlesComponent.onParams c q) with h | h
    · exact Or.inr ⟨q, h⟩
    · exact Or.inr h

/-- Every computed content path satisfies the path invariant. -/
lemma computePath_invariant (ps : Params) : PathInvariant (computePath ps) := by
  unfold PathInvariant
  refine Or.inr ⟨⟨(jsString (getParam ps "title")).data ++ ".md".data, ?_⟩,
    ⟨"assets/markdown/".data ++ (jsString (getParam ps "title")).data, ?_⟩⟩
  · rw [computePath, data_templatePath, List.append_assoc]
  · rw [computePath, data_templatePath]

/-- C1: for every route-parameter emission carrying a title string t, the
subscribe callback sets the content path to exactly
"assets/markdown/" ++ t ++ ".md", with no transformation, escaping, or
validation of t. -/
theorem filePath_eq_template (c : ArticlesComponent) (ps : Params) (t : String)
    (h : getParam ps "title" = some t) :
    (ArticlesComponent.onParams c ps).filePath = "assets/markdown/" ++ t ++ ".md" := by
  simp [ArticlesComponent.onParams, computePath, templatePath, jsString, h]

/-- C1 witness: the theorem applied at a concrete emission carrying the
title "oop-paradigm". -/
theorem filePath_eq_template_witness :
    (ArticlesComponent.onParams (ArticlesComponent.init ⟨0⟩)
      [("title", "oop-paradigm")]).filePath
      = "assets/markdown/" ++ "oop-paradigm" ++ ".md" :=
  filePath_eq_template (ArticlesComponent.init ⟨0⟩)
    [("title", "oop-paradigm")] "oop-paradigm" rfl

/-- C2: appConfig configures the Markdown pipeline with sanitize =
SecurityContext.NONE, so any markup containing a raw script tag still
contains it, unescaped, in the rendered output. -/
theorem render_script_unescaped :
    appConfig.markdown.sanitize = SecurityContext.NONE ∧
    ∀ md : String, "<script>".data <:+: md.data →
      "<script>".data <:+: (renderOutput appConfig.markdown md).data := by
  refine ⟨rfl, ?_⟩
  intro md h
  exact h

/-- C2 witness: the theorem applied to a concrete Markdown source holding a
raw script tag. -/
theorem render_script_unescaped_witness :
    "<script>".data <:+:
      (renderOutput appConfig.markdown "# hi\n<script>alert(1)</script>").data :=
  render_script_unescaped.2 "# hi\n<script>alert(1)</script>" (by decide)

/-- C3: for every route-parameter emission in which the title key is
absent, the computed content path is the literal
"assets/markdown/undefined.md". -/
theorem filePath_missing_title (c : ArticlesComponent) (ps : Params)
    (h : getParam ps "title" = none) :
    (ArticlesComponent.onParams c ps).filePath = "assets/markdown/undefined.md" := by
  simp [ArticlesComponent.onParams, computePath, templatePath, jsString, h]

/-- C3 witness: the theorem applied at an emission whose snapshot has no
title key. -/
theorem filePath_missing_title_witness :
    (ArticlesComponent.onParams (ArticlesComponent.init ⟨0⟩)
      [("category", "backend")]).filePath = "assets/markdown/undefined.md" :=
  filePath_missing_title (ArticlesComponent.init ⟨0⟩) [("category", "backend")] rfl

/-- C4: the path update overwrites rather than merges — whatever the prior
component state, after a sequence of emissions ending in p the content path
is the one computed from p alone (last-navigation-wins). -/
theorem last_navigation_wins (c : ArticlesComponent) (es : List Params) (p : Params) :
    (ArticlesComponent.run c (es ++ [p])).filePath = computePath p := by
  rw [run_concat]
  rfl

/-- C5: only the title key of the route parameters influences the computed
content path — two snapshots that agree on title give the component the
same content path, whatever their other keys. -/
theorem filePath_depends_only_on_title (c : ArticlesComponent) (ps qs : Params)
    (h : getParam ps "title" = getParam qs "title") :
    (ArticlesComponent.onParams c ps).filePath
      = (ArticlesComponent.onParams c qs).filePath := by
  simp [ArticlesComponent.onParams, computePath, h]

/-- C5 witness: the theorem applied to two concrete snapshots sharing the
title but differing on every other key. -/
theorem filePath_depends_only_on_title_witness :
    (ArticlesComponent.onParams (ArticlesComponent.init ⟨0⟩)
      [("title", "oop-paradigm"), ("extra", "1")]).filePath
    = (ArticlesComponent.onParams (ArticlesComponent.init ⟨0⟩)
      [("other", "z"), ("title", "oop-paradigm")]).filePath :=
  filePath_depends_only_on_title (ArticlesComponent.init ⟨0⟩)
    [("title", "oop-paradigm"), ("extra", "1")]
    [("other", "z"), ("title", "oop-paradigm")] rfl

/-- C6: before any emission the content path is the empty string, and after
any non-empty sequence of emissions it is never the empty string again: the
component cycles between its two logical states and has no terminal one. -/
theorem two_state_no_terminal (s : ParamsStream) (es : List Params) :
    (ArticlesComponent.init s).filePath = "" ∧
    (es ≠ [] →
      (ArticlesComponent.run (ArticlesComponent.init s) es).filePath ≠ "") := by
  refine ⟨rfl, ?_⟩
  intro hne
  rcases es.eq_nil_or_concat' with h | ⟨L, b, rfl⟩
  · exact absurd h hne
  · rw [run_concat]
    exact computePath_ne_empty b

/-- C6 witness: the theorem applied at a concrete one-emission run. -/
theorem two_state_no_terminal_witness :
    (ArticlesComponent.init ⟨0⟩).filePath = "" ∧
    (ArticlesComponent.run (ArticlesComponent.init ⟨0⟩)
      [[("title", "a")]]).filePath ≠ "" :=
  ⟨(two_state_no_terminal ⟨0⟩ [[("title", "a")]]).1,
   (two_state_no_terminal ⟨0⟩ [[("title", "a")]]).2 (by decide)⟩

/-- C7: one route-parameter emission mutates only the content-path field:
the params stream reference is unchanged, and the new state is the old one
with just `filePath` overwritten. -/
theorem onParams_frame (c : ArticlesComponent) (ps : Params) :
    (ArticlesComponent.onParams c ps).params = c.params ∧
    ArticlesComponent.onParams c ps = { c with filePath := computePath ps } :=
  ⟨rfl, rfl⟩

/-- C8: with no cancellation of in-flight fetches, the race trace — emit
title a, emit title b, b's fetch resolves, then a's stale fetch resolves —
leaves the component pointing at b's path while a's older content is
displayed: the stale fetch overwrote newer content. -/
theorem stale_fetch_race :
    (runEvents (initView ⟨0⟩) raceTrace).component.filePath
        = "assets/markdown/b.md" ∧
    (runEvents (initView ⟨0⟩) raceTrace).displayed
        = some ("assets/markdown/a.md", "content a") := by
  constructor <;> rfl

/-- C9: the path template is injective in the interpolated title — equal
instantiated templates force equal titles, so distinct titles always yield
distinct content paths. -/
theorem templatePath_injective (a b : String)
    (h : templatePath a = templatePath b) : a = b := by
  have h2 := congrArg String.data h
  rw [data_templatePath, data_templatePath] at h2
  exact String.ext (List.append_cancel_left (List.append_cancel_right h2))

/-- C9 witness: the theorem applied at a concrete pair of equal instantiated
templates. -/
theorem templatePath_injective_witness : ("oop-paradigm" : String) = "oop-paradigm" :=
  templatePath_injective "oop-paradigm" "oop-paradigm" rfl

/-- C10: in every reachable component state the content path is the empty
string or starts with "assets/markdown/" and ends with ".md"; every
emission preserves the invariant. -/
theorem filePath_invariant (s : ParamsStream) (es : List Params) :
    PathInvariant (ArticlesComponent.run (ArticlesComponent.init s) es).filePath := by
  rcases run_filePath_cases (ArticlesComponent.init s) es with h | ⟨p, h⟩
  · rw [h]
    exact Or.inl rfl
  · rw [h]
    exact computePath_invariant p
